import Mathlib

/-!
Verification of the service-worker caching layer of the Offline-AI-Learning
repository.  The repository ships three near-duplicate service workers:

* v2 — `sw.js` (cache names `ai-learning-v2`, `stlite-cache-v1`; a separate
  cache-first branch for jsdelivr/pypi/pyodide CDN hosts, and a
  stale-while-revalidate local branch);
* v3 — the first unnamed file (single cache `ai-learning-v3`);
* v1 — the second unnamed file (caches `static-v1` / `dynamic-v1`, plus a
  background-sync stub).

The embedding models the Cache Storage API shallowly: a cache is an
association list from request URL to stored response, the cache storage is an
association list from cache name to cache, and the network is a partial map
from URL to response (`none` models a rejected `fetch`).  Each event handler
becomes a pure function on this state; the fetch handlers additionally report
the outcome handed to `respondWith` and the list of URLs they fetched from
the network.
-/

namespace SW

/-- A response: the `ok` flag (HTTP status in the 200 range) and an opaque
body identifying the payload. -/
structure Response where
  ok : Bool
  body : String
deriving DecidableEq, Repr

/-- The parts of a fetch-event request the handlers inspect: the method, the
full URL string, the URL's protocol and hostname components, and the value of
`request.headers.get('accept')` (`none` when the header is absent). -/
structure Request where
  method : String
  url : String
  protocol : String
  hostname : String
  accept : Option String
deriving DecidableEq, Repr

/-- A single cache: entries keyed by request URL. -/
abbrev Cache := List (String × Response)

/-- The cache storage: named caches in creation order. -/
abbrev CacheStorage := List (String × Cache)

/-- The network: `none` models a rejected fetch, `some r` a resolved fetch
(whose response may still have `ok = false`). -/
abbrev Network := String → Option Response

/-- JavaScript `haystack.includes(needle)` on strings. -/
def substrOf (needle haystack : String) : Bool :=
  decide (needle.toList <:+: haystack.toList)

/-- JavaScript `s.startsWith(pre)`. -/
def strStartsWith (s pre : String) : Bool :=
  decide (pre.toList <+: s.toList)

/-- Look a URL up in a single cache. -/
def cacheLookup (c : Cache) (k : String) : Option Response :=
  match c with
  | [] => none
  | (k', r) :: rest => if k' = k then some r else cacheLookup rest k

/-- `caches.match(k)`: search every cache in storage order. -/
def cachesMatch (st : CacheStorage) (k : String) : Option Response :=
  match st with
  | [] => none
  | (_, c) :: rest =>
    match cacheLookup c k with
    | some r => some r
    | none => cachesMatch rest k

/-- `cache.put(k, r)`: overwrite any existing entry for the key. -/
def cachePut (c : Cache) (k : String) (r : Response) : Cache :=
  match c with
  | [] => [(k, r)]
  | (k', r') :: rest =>
    if k' = k then (k, r) :: rest else (k', r') :: cachePut rest k r

/-- `caches.open(name)` followed by `cache.put(k, r)`: the cache is created
at the end of the storage when absent. -/
def storagePut (st : CacheStorage) (name k : String) (r : Response) :
    CacheStorage :=
  match st with
  | [] => [(name, [(k, r)])]
  | (n, c) :: rest =>
    if n = name then (n, cachePut c k r) :: rest
    else (n, c) :: storagePut rest name k r

/-- Look a URL up in the named cache only. -/
def storageLookup (st : CacheStorage) (name k : String) : Option Response :=
  match st with
  | [] => none
  | (n, c) :: rest =>
    if n = name then cacheLookup c k else storageLookup rest name k

/-- The outcome a fetch handler hands to the event: `pass` when it returns
before calling `respondWith`; `respond r` when the `respondWith` promise
resolves with a response; `respondNone` when it resolves with `undefined`
(a handler branch that returns no value); `failure` when it rejects (an
exception escaped the handler chain). -/
inductive HandlerResult where
  | pass
  | respond (r : Response)
  | respondNone
  | failure
deriving DecidableEq, Repr

/-- One fetch-handler run: the outcome, the cache storage afterwards
(background writes included), and the URLs fetched from the network. -/
structure FetchStep where
  result : HandlerResult
  st : CacheStorage
  netFetched : List String
deriving DecidableEq, Repr

/-! ### Constants of the three variants -/

def CACHE_NAME_V2 : String := "ai-learning-v2"
def STLITE_CACHE : String := "stlite-cache-v1"

def STATIC_ASSETS_V2 : List String :=
  ["/", "/index.html", "/manifest.json", "/static/styles.css",
   "/static/icons/icon-192.svg", "/static/icons/icon-512.svg"]

def STLITE_RESOURCES : List String :=
  ["https://cdn.jsdelivr.net/npm/@stlite/mountable@0.42.3/build/stlite.js"]

def CACHE_NAME_V3 : String := "ai-learning-v3"

def STATIC_ASSETS_V3 : List String := ["./", "./index.html", "./manifest.json"]

def STATIC_CACHE : String := "static-v1"
def DYNAMIC_CACHE : String := "dynamic-v1"

def STATIC_ASSETS_V1 : List String := ["/", "/static/styles.css", "/manifest.json"]

/-! ### Fetch handlers -/

/-- The condition selecting the CDN branch of the v2 fetch handler. -/
def isCdnHost (hostname : String) : Bool :=
  substrOf "jsdelivr" hostname || substrOf "pypi" hostname
    || substrOf "pyodide" hostname

/-- The CDN `respondWith` body of the v2 handler (`sw.js` lines 68–83):
cache-first; on a miss the response is stored into `STLITE_CACHE` iff `ok`;
there is no catch, so a rejected fetch rejects the whole promise. -/
def v2CdnFetch (net : Network) (st : CacheStorage) (req : Request) :
    FetchStep :=
  match cachesMatch st req.url with
  | some cached => ⟨.respond cached, st, []⟩
  | none =>
    match net req.url with
    | some r =>
      if r.ok then ⟨.respond r, storagePut st STLITE_CACHE req.url r, [req.url]⟩
      else ⟨.respond r, st, [req.url]⟩
    | none => ⟨.failure, st, [req.url]⟩

/-- The catch block of the v2 local branch (`sw.js` lines 112–117): with
optional chaining an absent `accept` header yields `undefined`, which is
falsy, so the function falls through and returns no value. -/
def v2Catch (st : CacheStorage) (req : Request) : HandlerResult :=
  match req.accept with
  | some a =>
    if substrOf "text/html" a then
      match cachesMatch st "/index.html" with
      | some f => .respond f
      | none => .respondNone
    else .respondNone
  | none => .respondNone

/-- The local `respondWith` body of the v2 handler (`sw.js` lines 88–119):
cache-first; a hit triggers a background revalidation (`ok`-guarded put,
failures swallowed); a miss fetches with an `ok`-guarded put and falls to
`v2Catch` when the fetch rejects. -/
def v2LocalFetch (net : Network) (st : CacheStorage) (req : Request) :
    FetchStep :=
  match cachesMatch st req.url with
  | some cached =>
    match net req.url with
    | some r =>
      if r.ok then ⟨.respond cached, storagePut st CACHE_NAME_V2 req.url r, [req.url]⟩
      else ⟨.respond cached, st, [req.url]⟩
    | none => ⟨.respond cached, st, [req.url]⟩
  | none =>
    match net req.url with
    | some r =>
      if r.ok then ⟨.respond r, storagePut st CACHE_NAME_V2 req.url r, [req.url]⟩
      else ⟨.respond r, st, [req.url]⟩
    | none => ⟨v2Catch st req, st, [req.url]⟩

/-- `sw.js` fetch handler (v2): skip guards, then the CDN branch for
jsdelivr/pypi/pyodide hosts and the local branch otherwise. -/
def fetchHandlerV2 (net : Network) (st : CacheStorage) (req : Request) :
    FetchStep :=
  if req.method ≠ "GET" then ⟨.pass, st, []⟩
  else if !(strStartsWith req.protocol "http") then ⟨.pass, st, []⟩
  else if isCdnHost req.hostname then v2CdnFetch net st req
  else v2LocalFetch net st req

/-- The catch block of the v3 handler: unconditionally serve the cached
`./index.html` (which `caches.match` resolves to `undefined` when the
fallback itself is not cached). -/
def v3Catch (st : CacheStorage) : HandlerResult :=
  match cachesMatch st "./index.html" with
  | some f => .respond f
  | none => .respondNone

/-- v3 fetch handler.  The skip guard tests the URL string itself for the
`http` prefix.  Plain cache-first: a hit is returned with no network
traffic; a miss fetches, stores the response iff `ok`, and on fetch failure
falls to `v3Catch`. -/
def fetchHandlerV3 (net : Network) (st : CacheStorage) (req : Request) :
    FetchStep :=
  if req.method ≠ "GET" then ⟨.pass, st, []⟩
  else if !(strStartsWith req.url "http") then ⟨.pass, st, []⟩
  else
    match cachesMatch st req.url with
    | some cached => ⟨.respond cached, st, []⟩
    | none =>
      match net req.url with
      | some r =>
        if r.ok then ⟨.respond r, storagePut st CACHE_NAME_V3 req.url r, [req.url]⟩
        else ⟨.respond r, st, [req.url]⟩
      | none => ⟨v3Catch st, st, [req.url]⟩

/-- v1 `updateCache`: background refetch, `ok`-guarded put into
`DYNAMIC_CACHE`, failures swallowed by its try/catch. -/
def updateCache (net : Network) (st : CacheStorage) (url : String) :
    CacheStorage :=
  match net url with
  | some r => if r.ok then storagePut st DYNAMIC_CACHE url r else st
  | none => st

/-- The catch block of the v1 handler: it reads
`request.headers.get('accept').includes('text/html')` with no null guard, so
an absent `accept` header throws a `TypeError` inside the catch callback and
the `respondWith` promise rejects. -/
def v1Catch (st : CacheStorage) (req : Request) : HandlerResult :=
  match req.accept with
  | none => .failure
  | some a =>
    if substrOf "text/html" a then
      match cachesMatch st "/offline.html" with
      | some f => .respond f
      | none => .respondNone
    else .respondNone

/-- v1 fetch handler.  Cache-first with `updateCache` revalidation on a hit;
on a miss an `ok`-guarded put into `DYNAMIC_CACHE`; on fetch failure the
outcome is `v1Catch`. -/
def fetchHandlerV1 (net : Network) (st : CacheStorage) (req : Request) :
    FetchStep :=
  if req.method ≠ "GET" then ⟨.pass, st, []⟩
  else if !(strStartsWith req.protocol "http") then ⟨.pass, st, []⟩
  else
    match cachesMatch st req.url with
    | some cached => ⟨.respond cached, updateCache net st req.url, [req.url]⟩
    | none =>
      match net req.url with
      | some r =>
        if r.ok then ⟨.respond r, storagePut st DYNAMIC_CACHE req.url r, [req.url]⟩
        else ⟨.respond r, st, [req.url]⟩
      | none => ⟨v1Catch st req, st, [req.url]⟩

/-! ### Activate handlers -/

/-- v2 keeps every cache whose name starts with `ai-learning` or `stlite`;
the delete filter in `sw.js` is the negation of this predicate. -/
def keepV2 (n : String) : Bool :=
  strStartsWith n "ai-learning" || strStartsWith n "stlite"

/-- v2 activate handler: delete the caches failing `keepV2`. -/
def activateV2 (st : CacheStorage) : CacheStorage :=
  st.filter fun e => keepV2 e.1

/-- v3 keeps only the cache named exactly `CACHE_NAME_V3`. -/
def keepV3 (n : String) : Bool := n = CACHE_NAME_V3

/-- v3 activate handler. -/
def activateV3 (st : CacheStorage) : CacheStorage :=
  st.filter fun e => keepV3 e.1

/-- v1 keeps exactly `static-v1` and `dynamic-v1`. -/
def keepV1 (n : String) : Bool := n = STATIC_CACHE || n = DYNAMIC_CACHE

/-- v1 activate handler. -/
def activateV1 (st : CacheStorage) : CacheStorage :=
  st.filter fun e => keepV1 e.1

/-! ### Install handlers -/

/-- `cache.addAll(urls)`: fetch every URL; the whole operation rejects if any
fetch rejects or any response is not `ok`; on success it yields the fetched
entries. -/
def addAll (net : Network) (urls : List String) :
    Option (List (String × Response)) :=
  match urls with
  | [] => some []
  | u :: rest =>
    match net u with
    | none => none
    | some r =>
      if r.ok then (addAll net rest).map (fun es => (u, r) :: es) else none

/-- Store a list of fetched entries into the named cache. -/
def putAll (st : CacheStorage) (name : String)
    (es : List (String × Response)) : CacheStorage :=
  match es with
  | [] => st
  | e :: rest => putAll (storagePut st name e.1 e.2) name rest

/-- v2 install handler: `addAll` the static assets into `CACHE_NAME` and the
stlite resources into `STLITE_CACHE`; `none` models a failed install (the
`waitUntil` promise rejected). -/
def installV2 (net : Network) (st : CacheStorage) : Option CacheStorage :=
  match addAll net STATIC_ASSETS_V2, addAll net STLITE_RESOURCES with
  | some es1, some es2 =>
    some (putAll (putAll st CACHE_NAME_V2 es1) STLITE_CACHE es2)
  | _, _ => none

/-- v3 install handler. -/
def installV3 (net : Network) (st : CacheStorage) : Option CacheStorage :=
  (addAll net STATIC_ASSETS_V3).map fun es => putAll st CACHE_NAME_V3 es

/-- v1 install handler (assets go into `STATIC_CACHE`). -/
def installV1 (net : Network) (st : CacheStorage) : Option CacheStorage :=
  (addAll net STATIC_ASSETS_V1).map fun es => putAll st STATIC_CACHE es

/-! ### Background sync (v1) -/

/-- `syncProgress`: read the queue (`readOk = false` models a throwing
read), POST it when non-empty (`postOk = false` models a rejected fetch; the
try/catch then skips the clear), and clear it after the POST.  Returns the
queue afterwards and whether a network request was issued. -/
def syncProgress (readOk : Bool) (q : List String) (postOk : Bool) :
    List String × Bool :=
  if readOk then
    if q ≠ [] then
      if postOk then ([], true) else (q, true)
    else (q, false)
  else (q, false)

/-- The v1 sync handler: only the `sync-progress` tag triggers
`syncProgress`. -/
def syncHandler (tag : String) (readOk : Bool) (q : List String)
    (postOk : Bool) : List String × Bool :=
  if tag = "sync-progress" then syncProgress readOk q postOk else (q, false)

/-! ### Lemmas about the cache primitives -/

theorem cacheLookup_cachePut_self (c : Cache) (k : String) (r : Response) :
    cacheLookup (cachePut c k r) k = some r := by
  induction c with
  | nil => simp [cachePut, cacheLookup]
  | cons e rest ih =>
    obtain ⟨k', r'⟩ := e
    by_cases h : k' = k <;> simp [cachePut, cacheLookup, h, ih]

theorem cacheLookup_cachePut_ne (c : Cache) (k k' : String) (r : Response)
    (h : k' ≠ k) : cacheLookup (cachePut c k r) k' = cacheLookup c k' := by
  induction c with
  | nil => simp [cachePut, cacheLookup, Ne.symm h]
  | cons e rest ih =>
    obtain ⟨k₀, r₀⟩ := e
    by_cases h₀ : k₀ = k
    · subst h₀
      simp [cachePut, cacheLookup, Ne.symm h]
    · simp [cachePut, cacheLookup, h₀, ih]

theorem storageLookup_storagePut (st : CacheStorage) (n k : String)
    (r : Response) (n' k' : String) :
    storageLookup (storagePut st n k r) n' k' =
      if n' = n ∧ k' = k then some r else storageLookup st n' k' := by
  induction st with
  | nil =>
    by_cases hn : n' = n
    · subst hn
      by_cases hk : k' = k
      · subst hk; simp [storagePut, storageLookup, cacheLookup]
      · simp [storagePut, storageLookup, cacheLookup, hk, Ne.symm hk]
    · simp [storagePut, storageLookup, hn, Ne.symm hn]
  | cons e rest ih =>
    obtain ⟨m, c⟩ := e
    by_cases hm : m = n
    · subst hm
      by_cases hn : n' = m
      · subst hn
        by_cases hk : k' = k
        · subst hk; simp [storagePut, storageLookup, cacheLookup_cachePut_self]
        · simp [storagePut, storageLookup, hk, cacheLookup_cachePut_ne c k k' r hk]
      · simp [storagePut, storageLookup, hn, Ne.symm hn]
    · by_cases hn : n' = m
      · subst hn
        simp [storagePut, storageLookup, hm]
      · simp [storagePut, storageLookup, hm, Ne.symm hn, ih]

theorem cachesMatch_storagePut_self (st : CacheStorage) (n k : String)
    (r : Response) (h : cachesMatch st k = none) :
    cachesMatch (storagePut st n k r) k = some r := by
  induction st with
  | nil => simp [storagePut, cachesMatch, cacheLookup]
  | cons e rest ih =>
    obtain ⟨m, c⟩ := e
    simp only [cachesMatch] at h
    rcases hc : cacheLookup c k with _ | v
    · rw [hc] at h
      by_cases hm : m = n
      · subst hm
        simp [storagePut, cachesMatch, cacheLookup_cachePut_self]
      · simp [storagePut, cachesMatch, hc, fun e : m = n => hm e, ih h]
    · rw [hc] at h; exact absurd h (by simp)

theorem cachesMatch_storagePut_isSome (st : CacheStorage) (n k : String)
    (r : Response) (k' : String) (h : (cachesMatch st k').isSome) :
    (cachesMatch (storagePut st n k r) k').isSome := by
  induction st with
  | nil => simp [cachesMatch] at h
  | cons e rest ih =>
    obtain ⟨m, c⟩ := e
    simp only [cachesMatch] at h
    by_cases hm : m = n
    · subst hm
      rcases hc : cacheLookup c k' with _ | v
      · rw [hc] at h
        by_cases hk : k' = k
        · subst hk; simp [storagePut, cachesMatch, cacheLookup_cachePut_self]
        · simp [storagePut, cachesMatch, cacheLookup_cachePut_ne c k k' r hk, hc, h]
      · simp [storagePut, cachesMatch]
        by_cases hk : k' = k
        · subst hk; simp [cacheLookup_cachePut_self]
        · simp [cacheLookup_cachePut_ne c k k' r hk, hc]
    · rcases hc : cacheLookup c k' with _ | v
      · rw [hc] at h
        simp [storagePut, cachesMatch, fun e : m = n => hm e, hc, ih h]
      · simp [storagePut, cachesMatch, fun e : m = n => hm e, hc]

theorem storageLookup_storagePut_isSome (st : CacheStorage) (n k : String)
    (r : Response) (n' k' : String) (h : (storageLookup st n' k').isSome) :
    (storageLookup (storagePut st n k r) n' k').isSome := by
  rw [storageLookup_storagePut]
  split <;> simp [h]

theorem storageLookup_putAll_isSome (es : List (String × Response))
    (st : CacheStorage) (n n' k : String)
    (h : (storageLookup st n' k).isSome) :
    (storageLookup (putAll st n es) n' k).isSome := by
  induction es generalizing st with
  | nil => exact h
  | cons e rest ih =>
    exact ih _ (storageLookup_storagePut_isSome st n e.1 e.2 n' k h)

theorem storageLookup_putAll_mem (es : List (String × Response))
    (st : CacheStorage) (n u : String) (hu : u ∈ es.map Prod.fst) :
    (storageLookup (putAll st n es) n u).isSome := by
  induction es generalizing st with
  | nil => simp at hu
  | cons e rest ih =>
    simp only [List.map_cons, List.mem_cons] at hu
    rcases hu with hu | hu
    · subst hu
      exact storageLookup_putAll_isSome rest _ n n e.1
        (by rw [storageLookup_storagePut]; simp)
    · exact ih _ (by simpa using hu)

theorem addAll_keys (net : Network) (urls : List String)
    (es : List (String × Response)) (h : addAll net urls = some es) :
    es.map Prod.fst = urls := by
  induction urls generalizing es with
  | nil => simp [addAll] at h; simp [← h]
  | cons u rest ih =>
    simp only [addAll] at h
    split at h
    · exact absurd h (by simp)
    · split at h
      · rw [Option.map_eq_some'] at h
        obtain ⟨es', he, rfl⟩ := h
        simp [ih es' he]
      · exact absurd h (by simp)

/-! ### Combined fetch-event sequences (for the ok-entry invariant) -/

/-- Which of the three service-worker variants handles a fetch event. -/
inductive Variant where
  | v1 | v2 | v3
deriving DecidableEq, Repr

/-- Dispatch to the variant's fetch handler. -/
def fetchHandler : Variant → Network → CacheStorage → Request → FetchStep
  | .v1 => fetchHandlerV1
  | .v2 => fetchHandlerV2
  | .v3 => fetchHandlerV3

/-- Run a sequence of fetch events, threading the cache storage. -/
def runFetches (net : Network) (st : CacheStorage) :
    List (Variant × Request) → CacheStorage
  | [] => st
  | ev :: evs => runFetches net (fetchHandler ev.1 net st ev.2).st evs

theorem growth_of_put (st : CacheStorage) (nm u : String) (r' : Response)
    (hok : r'.ok = true) (n k : String) (r : Response)
    (h : storageLookup (storagePut st nm u r') n k = some r) :
    storageLookup st n k = some r ∨ r.ok = true := by
  rw [storageLookup_storagePut] at h
  split at h
  · right
    rw [show r' = r from Option.some.inj h] at hok
    exact hok
  · left; exact h

theorem fetchStep_growth (v : Variant) (net : Network) (st : CacheStorage)
    (req : Request) (n k : String) (r : Response)
    (h : storageLookup (fetchHandler v net st req).st n k = some r) :
    storageLookup st n k = some r ∨ r.ok = true := by
  cases v
  case v1 =>
    simp only [fetchHandler, fetchHandlerV1, updateCache] at h
    split at h
    · exact Or.inl h
    split at h
    · exact Or.inl h
    split at h
    · split at h
      · split at h
        · exact growth_of_put st _ _ _ (by assumption) n k r h
        · exact Or.inl h
      · exact Or.inl h
    · split at h
      · split at h
        · exact growth_of_put st _ _ _ (by assumption) n k r h
        · exact Or.inl h
      · exact Or.inl h
  case v2 =>
    simp only [fetchHandler, fetchHandlerV2, v2CdnFetch, v2LocalFetch] at h
    split at h
    · exact Or.inl h
    split at h
    · exact Or.inl h
    split at h
    · split at h
      · exact Or.inl h
      · split at h
        · split at h
          · exact growth_of_put st _ _ _ (by assumption) n k r h
          · exact Or.inl h
        · exact Or.inl h
    · split at h
      · split at h
        · split at h
          · exact growth_of_put st _ _ _ (by assumption) n k r h
          · exact Or.inl h
        · exact Or.inl h
      · split at h
        · split at h
          · exact growth_of_put st _ _ _ (by assumption) n k r h
          · exact Or.inl h
        · exact Or.inl h
  case v3 =>
    simp only [fetchHandler, fetchHandlerV3] at h
    split at h
    · exact Or.inl h
    split at h
    · exact Or.inl h
    split at h
    · exact Or.inl h
    · split at h
      · split at h
        · exact growth_of_put st _ _ _ (by assumption) n k r h
        · exact Or.inl h
      · exact Or.inl h

theorem runFetches_growth (net : Network) (evs : List (Variant × Request))
    (st : CacheStorage) (n k : String) (r : Response)
    (h : storageLookup (runFetches net st evs) n k = some r) :
    storageLookup st n k = some r ∨ r.ok = true := by
  induction evs generalizing st with
  | nil => exact Or.inl h
  | cons ev rest ih =>
    rcases ih _ h with h' | h'
    · exact fetchStep_growth ev.1 net st ev.2 n k r h'
    · exact Or.inr h'

/-! ### Reduction helpers for the fetch handlers -/

theorem v2_guard_eq (net : Network) (st : CacheStorage) (req : Request)
    (hm : req.method = "GET") (hp : strStartsWith req.protocol "http" = true) :
    fetchHandlerV2 net st req =
      if isCdnHost req.hostname then v2CdnFetch net st req
      else v2LocalFetch net st req := by
  unfold fetchHandlerV2
  rw [if_neg (by simp [hm]), if_neg (by simp [hp])]

theorem v2CdnFetch_hit (net : Network) (st : CacheStorage) (req : Request)
    (c : Response) (hc : cachesMatch st req.url = some c) :
    v2CdnFetch net st req = ⟨.respond c, st, []⟩ := by
  unfold v2CdnFetch; rw [hc]

theorem v2CdnFetch_miss_some (net : Network) (st : CacheStorage)
    (req : Request) (r : Response) (hc : cachesMatch st req.url = none)
    (hn : net req.url = some r) :
    v2CdnFetch net st req =
      if r.ok then ⟨.respond r, storagePut st STLITE_CACHE req.url r, [req.url]⟩
      else ⟨.respond r, st, [req.url]⟩ := by
  unfold v2CdnFetch; rw [hc, hn]

theorem v2CdnFetch_miss_none (net : Network) (st : CacheStorage)
    (req : Request) (hc : cachesMatch st req.url = none)
    (hn : net req.url = none) :
    v2CdnFetch net st req = ⟨.failure, st, [req.url]⟩ := by
  unfold v2CdnFetch; rw [hc, hn]

theorem v2LocalFetch_hit (net : Network) (st : CacheStorage) (req : Request)
    (c : Response) (hc : cachesMatch st req.url = some c) :
    v2LocalFetch net st req =
      match net req.url with
      | some r =>
        if r.ok then ⟨.respond c, storagePut st CACHE_NAME_V2 req.url r, [req.url]⟩
        else ⟨.respond c, st, [req.url]⟩
      | none => ⟨.respond c, st, [req.url]⟩ := by
  unfold v2LocalFetch; rw [hc]

theorem v2LocalFetch_hit_result (net : Network) (st : CacheStorage)
    (req : Request) (c : Response) (hc : cachesMatch st req.url = some c) :
    (v2LocalFetch net st req).result = .respond c := by
  rw [v2LocalFetch_hit net st req c hc]
  rcases hn : net req.url with _ | r
  · rfl
  · by_cases hok : r.ok <;> simp [hok]

theorem v2LocalFetch_hit_netFetched (net : Network) (st : CacheStorage)
    (req : Request) (c : Response) (hc : cachesMatch st req.url = some c) :
    (v2LocalFetch net st req).netFetched = [req.url] := by
  rw [v2LocalFetch_hit net st req c hc]
  rcases hn : net req.url with _ | r
  · rfl
  · by_cases hok : r.ok <;> simp [hok]

theorem v2LocalFetch_miss_some (net : Network) (st : CacheStorage)
    (req : Request) (r : Response) (hc : cachesMatch st req.url = none)
    (hn : net req.url = some r) :
    v2LocalFetch net st req =
      if r.ok then ⟨.respond r, storagePut st CACHE_NAME_V2 req.url r, [req.url]⟩
      else ⟨.respond r, st, [req.url]⟩ := by
  unfold v2LocalFetch; rw [hc, hn]

theorem v2LocalFetch_miss_none (net : Network) (st : CacheStorage)
    (req : Request) (hc : cachesMatch st req.url = none)
    (hn : net req.url = none) :
    v2LocalFetch net st req = ⟨v2Catch st req, st, [req.url]⟩ := by
  unfold v2LocalFetch; rw [hc, hn]

theorem v3_hit (net : Network) (st : CacheStorage) (req : Request)
    (c : Response) (hm : req.method = "GET")
    (hu : strStartsWith req.url "http" = true)
    (hc : cachesMatch st req.url = some c) :
    fetchHandlerV3 net st req = ⟨.respond c, st, []⟩ := by
  unfold fetchHandlerV3
  rw [if_neg (by simp [hm]), if_neg (by simp [hu]), hc]

theorem v3_miss_some (net : Network) (st : CacheStorage) (req : Request)
    (r : Response) (hm : req.method = "GET")
    (hu : strStartsWith req.url "http" = true)
    (hc : cachesMatch st req.url = none) (hn : net req.url = some r) :
    fetchHandlerV3 net st req =
      if r.ok then ⟨.respond r, storagePut st CACHE_NAME_V3 req.url r, [req.url]⟩
      else ⟨.respond r, st, [req.url]⟩ := by
  unfold fetchHandlerV3
  rw [if_neg (by simp [hm]), if_neg (by simp [hu]), hc, hn]

theorem v3_miss_none (net : Network) (st : CacheStorage) (req : Request)
    (hm : req.method = "GET") (hu : strStartsWith req.url "http" = true)
    (hc : cachesMatch st req.url = none) (hn : net req.url = none) :
    fetchHandlerV3 net st req = ⟨v3Catch st, st, [req.url]⟩ := by
  unfold fetchHandlerV3
  rw [if_neg (by simp [hm]), if_neg (by simp [hu]), hc, hn]

theorem v1_hit (net : Network) (st : CacheStorage) (req : Request)
    (c : Response) (hm : req.method = "GET")
    (hp : strStartsWith req.protocol "http" = true)
    (hc : cachesMatch st req.url = some c) :
    fetchHandlerV1 net st req =
      ⟨.respond c, updateCache net st req.url, [req.url]⟩ := by
  unfold fetchHandlerV1
  rw [if_neg (by simp [hm]), if_neg (by simp [hp]), hc]

theorem v1_miss_some (net : Network) (st : CacheStorage) (req : Request)
    (r : Response) (hm : req.method = "GET")
    (hp : strStartsWith req.protocol "http" = true)
    (hc : cachesMatch st req.url = none) (hn : net req.url = some r) :
    fetchHandlerV1 net st req =
      if r.ok then ⟨.respond r, storagePut st DYNAMIC_CACHE req.url r, [req.url]⟩
      else ⟨.respond r, st, [req.url]⟩ := by
  unfold fetchHandlerV1
  rw [if_neg (by simp [hm]), if_neg (by simp [hp]), hc, hn]

theorem v1_miss_none (net : Network) (st : CacheStorage) (req : Request)
    (hm : req.method = "GET") (hp : strStartsWith req.protocol "http" = true)
    (hc : cachesMatch st req.url = none) (hn : net req.url = none) :
    fetchHandlerV1 net st req = ⟨v1Catch st req, st, [req.url]⟩ := by
  unfold fetchHandlerV1
  rw [if_neg (by simp [hm]), if_neg (by simp [hp]), hc, hn]

theorem v2Catch_none (st : CacheStorage) (req : Request)
    (ha : req.accept = none) : v2Catch st req = .respondNone := by
  unfold v2Catch; rw [ha]

theorem v2Catch_some (st : CacheStorage) (req : Request) (a : String)
    (ha : req.accept = some a) :
    v2Catch st req =
      if substrOf "text/html" a then
        match cachesMatch st "/index.html" with
        | some f => .respond f
        | none => .respondNone
      else .respondNone := by
  unfold v2Catch; rw [ha]

theorem v1Catch_none (st : CacheStorage) (req : Request)
    (ha : req.accept = none) : v1Catch st req = .failure := by
  unfold v1Catch; rw [ha]

theorem v1Catch_some (st : CacheStorage) (req : Request) (a : String)
    (ha : req.accept = some a) :
    v1Catch st req =
      if substrOf "text/html" a then
        match cachesMatch st "/offline.html" with
        | some f => .respond f
        | none => .respondNone
      else .respondNone := by
  unfold v1Catch; rw [ha]

theorem v1_pass (net : Network) (st : CacheStorage) (req : Request)
    (h : req.method ≠ "GET" ∨ strStartsWith req.protocol "http" = false) :
    fetchHandlerV1 net st req = ⟨.pass, st, []⟩ := by
  unfold fetchHandlerV1
  rcases h with hm | hp
  · rw [if_pos hm]
  · by_cases hm : req.method ≠ "GET"
    · rw [if_pos hm]
    · rw [if_neg hm, if_pos (by simp [hp])]

theorem v2_pass (net : Network) (st : CacheStorage) (req : Request)
    (h : req.method ≠ "GET" ∨ strStartsWith req.protocol "http" = false) :
    fetchHandlerV2 net st req = ⟨.pass, st, []⟩ := by
  unfold fetchHandlerV2
  rcases h with hm | hp
  · rw [if_pos hm]
  · by_cases hm : req.method ≠ "GET"
    · rw [if_pos hm]
    · rw [if_neg hm, if_pos (by simp [hp])]

theorem v3_pass (net : Network) (st : CacheStorage) (req : Request)
    (h : req.method ≠ "GET" ∨ strStartsWith req.url "http" = false) :
    fetchHandlerV3 net st req = ⟨.pass, st, []⟩ := by
  unfold fetchHandlerV3
  rcases h with hm | hu
  · rw [if_pos hm]
  · by_cases hm : req.method ≠ "GET"
    · rw [if_pos hm]
    · rw [if_neg hm, if_pos (by simp [hu])]

/-! ### Concrete fixtures for counterexamples and witnesses -/

def respOk : Response := ⟨true, "payload"⟩
def respErr : Response := ⟨false, "not found"⟩

def reqPlain : Request :=
  ⟨"GET", "https://example.com/data.json", "https:", "example.com", none⟩

def reqHtml : Request :=
  ⟨"GET", "https://example.com/page", "https:", "example.com",
   some "text/html,application/xhtml+xml"⟩

def reqJson : Request :=
  ⟨"GET", "https://example.com/api", "https:", "example.com",
   some "application/json"⟩

def reqPost : Request :=
  ⟨"POST", "https://example.com/api", "https:", "example.com", none⟩

def netDown : Network := fun _ => none
def netOkAll : Network := fun _ => some respOk
def netErrAll : Network := fun _ => some respErr

/-! ### Claim C1 — cache-first policy -/

/-- **C1, counterexample.**  The claim states that on a cache miss the
fetched result is stored in the cache.  The v3 handler (cited by the claim)
on a miss with a non-`ok` network response returns that response but leaves
the cache storage unchanged: nothing is stored. -/
theorem C1_counterexample :
    (fetchHandlerV3 netErrAll [] reqPlain).result = .respond respErr ∧
    (fetchHandlerV3 netErrAll [] reqPlain).st = [] := by
  decide

/-- **C1 (amended).**  Cache-first policy of the fetch handlers (the cited
v2 and v3 variants), for intercepted GET http(s) requests: a stored
response, when present, is returned as the response; otherwise, when the
network fetch yields a response, that response is returned and it is stored
in the cache iff it is a successful (`ok`) response — a non-`ok` response
is returned but not stored. -/
theorem C1_cacheFirst_amended (net : Network) (st : CacheStorage)
    (req : Request) (hm : req.method = "GET")
    (hp : strStartsWith req.protocol "http" = true)
    (hu : strStartsWith req.url "http" = true) :
    (∀ c, cachesMatch st req.url = some c →
      (fetchHandlerV2 net st req).result = .respond c ∧
      (fetchHandlerV3 net st req).result = .respond c) ∧
    (cachesMatch st req.url = none → ∀ r, net req.url = some r →
      (fetchHandlerV2 net st req).result = .respond r ∧
      (fetchHandlerV3 net st req).result = .respond r ∧
      (r.ok = true →
        cachesMatch (fetchHandlerV2 net st req).st req.url = some r ∧
        cachesMatch (fetchHandlerV3 net st req).st req.url = some r) ∧
      (r.ok = false →
        (fetchHandlerV2 net st req).st = st ∧
        (fetchHandlerV3 net st req).st = st)) := by
  rw [v2_guard_eq net st req hm hp]
  constructor
  · intro c hc
    by_cases hcdn : isCdnHost req.hostname
    · rw [if_pos hcdn, v2CdnFetch_hit net st req c hc,
        v3_hit net st req c hm hu hc]
      exact ⟨rfl, rfl⟩
    · rw [if_neg hcdn, v3_hit net st req c hm hu hc]
      exact ⟨v2LocalFetch_hit_result net st req c hc, rfl⟩
  · intro hc r hn
    by_cases hcdn : isCdnHost req.hostname
    · rw [if_pos hcdn, v2CdnFetch_miss_some net st req r hc hn,
        v3_miss_some net st req r hm hu hc hn]
      by_cases hok : r.ok
      · rw [if_pos hok, if_pos hok]
        exact ⟨rfl, rfl,
          fun _ => ⟨cachesMatch_storagePut_self st _ _ r hc,
            cachesMatch_storagePut_self st _ _ r hc⟩,
          fun h => absurd hok (by simp [h])⟩
      · rw [if_neg hok, if_neg hok]
        exact ⟨rfl, rfl, fun h => absurd h hok, fun _ => ⟨rfl, rfl⟩⟩
    · rw [if_neg hcdn, v2LocalFetch_miss_some net st req r hc hn,
        v3_miss_some net st req r hm hu hc hn]
      by_cases hok : r.ok
      · rw [if_pos hok, if_pos hok]
        exact ⟨rfl, rfl,
          fun _ => ⟨cachesMatch_storagePut_self st _ _ r hc,
            cachesMatch_storagePut_self st _ _ r hc⟩,
          fun h => absurd hok (by simp [h])⟩
      · rw [if_neg hok, if_neg hok]
        exact ⟨rfl, rfl, fun h => absurd h hok, fun _ => ⟨rfl, rfl⟩⟩

/-- **C1, witness** for the amended theorem, at a GET request with an
empty cache, a network yielding an `ok` response, checked concretely. -/
theorem C1_witness :
    (fetchHandlerV2 netOkAll [] reqPlain).result = .respond respOk ∧
    (fetchHandlerV3 netOkAll [] reqPlain).result = .respond respOk ∧
    cachesMatch (fetchHandlerV2 netOkAll [] reqPlain).st reqPlain.url
      = some respOk ∧
    cachesMatch (fetchHandlerV3 netOkAll [] reqPlain).st reqPlain.url
      = some respOk := by
  have h := (C1_cacheFirst_amended netOkAll [] reqPlain rfl (by decide)
    (by decide)).2 rfl respOk rfl
  exact ⟨h.1, h.2.1, (h.2.2.1 rfl).1, (h.2.2.1 rfl).2⟩

/-! ### Claim C2 — the three variants as versions of one wrapper -/

/-- **C2, counterexample.**  The three fetch handlers do not produce the
same response on every request and cache state: on a cache miss with the
network down and no `accept` header, v1 rejects (`.failure`) while v2 and
v3 resolve with no response; and on a cache hit with the network up, v1
revalidates in the background (changing the caches) while v3 leaves them
unchanged. -/
theorem C2_counterexample :
    (fetchHandlerV1 netDown [] reqPlain).result = .failure ∧
    (fetchHandlerV2 netDown [] reqPlain).result = .respondNone ∧
    (fetchHandlerV3 netDown [] reqPlain).result = .respondNone ∧
    (fetchHandlerV1 netOkAll [("c", [(reqPlain.url, respOk)])] reqPlain).st ≠
      (fetchHandlerV3 netOkAll [("c", [(reqPlain.url, respOk)])] reqPlain).st := by
  decide

/-- **C2 (amended).**  The three variants share the cache-first skeleton:
for every intercepted GET http(s) request they return the same response on
a cache hit, and on a cache miss where the network yields a response; they
differ on the fetch-failure fallback path and in the cache state they leave
(cache names, and background revalidation in v1/v2). -/
theorem C2_sameSkeleton_amended (net : Network) (st : CacheStorage)
    (req : Request) (hm : req.method = "GET")
    (hp : strStartsWith req.protocol "http" = true)
    (hu : strStartsWith req.url "http" = true) :
    (∀ c, cachesMatch st req.url = some c →
      (fetchHandlerV1 net st req).result = .respond c ∧
      (fetchHandlerV2 net st req).result = .respond c ∧
      (fetchHandlerV3 net st req).result = .respond c) ∧
    (cachesMatch st req.url = none → ∀ r, net req.url = some r →
      (fetchHandlerV1 net st req).result = .respond r ∧
      (fetchHandlerV2 net st req).result = .respond r ∧
      (fetchHandlerV3 net st req).result = .respond r) := by
  rw [v2_guard_eq net st req hm hp]
  constructor
  · intro c hc
    rw [v1_hit net st req c hm hp hc, v3_hit net st req c hm hu hc]
    by_cases hcdn : isCdnHost req.hostname
    · rw [if_pos hcdn, v2CdnFetch_hit net st req c hc]
      exact ⟨rfl, rfl, rfl⟩
    · rw [if_neg hcdn]
      exact ⟨rfl, v2LocalFetch_hit_result net st req c hc, rfl⟩
  · intro hc r hn
    rw [v1_miss_some net st req r hm hp hc hn,
      v3_miss_some net st req r hm hu hc hn]
    by_cases hcdn : isCdnHost req.hostname
    · rw [if_pos hcdn, v2CdnFetch_miss_some net st req r hc hn]
      by_cases hok : r.ok
      · rw [if_pos hok, if_pos hok, if_pos hok]; exact ⟨rfl, rfl, rfl⟩
      · rw [if_neg hok, if_neg hok, if_neg hok]; exact ⟨rfl, rfl, rfl⟩
    · rw [if_neg hcdn, v2LocalFetch_miss_some net st req r hc hn]
      by_cases hok : r.ok
      · rw [if_pos hok, if_pos hok, if_pos hok]; exact ⟨rfl, rfl, rfl⟩
      · rw [if_neg hok, if_neg hok, if_neg hok]; exact ⟨rfl, rfl, rfl⟩

/-- **C2, witness** for the amended theorem: on a concrete cache hit all
three handlers return the stored response. -/
theorem C2_witness :
    (fetchHandlerV1 netOkAll [("c", [(reqPlain.url, respOk)])] reqPlain).result
      = .respond respOk ∧
    (fetchHandlerV2 netOkAll [("c", [(reqPlain.url, respOk)])] reqPlain).result
      = .respond respOk ∧
    (fetchHandlerV3 netOkAll [("c", [(reqPlain.url, respOk)])] reqPlain).result
      = .respond respOk :=
  (C2_sameSkeleton_amended netOkAll [("c", [(reqPlain.url, respOk)])] reqPlain
    rfl (by decide) (by decide)).1 respOk (by decide)

/-! ### Claim C3 — network contact on a cache hit -/

/-- **C3, counterexample.**  The claim says a cached GET request triggers no
network fetch, but the v2 local branch (and likewise v1) issues a background
revalidation fetch on every cache hit. -/
theorem C3_counterexample :
    cachesMatch [("c", [(reqPlain.url, respOk)])] reqPlain.url = some respOk ∧
    (fetchHandlerV2 netOkAll [("c", [(reqPlain.url, respOk)])]
      reqPlain).netFetched = [reqPlain.url] ∧
    (fetchHandlerV1 netOkAll [("c", [(reqPlain.url, respOk)])]
      reqPlain).netFetched = [reqPlain.url] := by
  decide

/-- **C3 (amended).**  On a cache hit, v3 (and the v2 CDN branch) issue no
network fetch; the v1 handler and the v2 local branch return the cached
response but additionally issue exactly one background revalidation fetch
of the request. -/
theorem C3_hitNetwork_amended (net : Network) (st : CacheStorage)
    (req : Request) (c : Response) (hm : req.method = "GET")
    (hp : strStartsWith req.protocol "http" = true)
    (hu : strStartsWith req.url "http" = true)
    (hc : cachesMatch st req.url = some c) :
    (fetchHandlerV3 net st req).netFetched = [] ∧
    (isCdnHost req.hostname = true →
      (fetchHandlerV2 net st req).netFetched = []) ∧
    (isCdnHost req.hostname = false →
      (fetchHandlerV2 net st req).netFetched = [req.url]) ∧
    (fetchHandlerV1 net st req).netFetched = [req.url] := by
  refine ⟨?_, ?_, ?_, ?_⟩
  · rw [v3_hit net st req c hm hu hc]
  · intro hcdn
    rw [v2_guard_eq net st req hm hp, if_pos hcdn,
      v2CdnFetch_hit net st req c hc]
  · intro hcdn
    rw [v2_guard_eq net st req hm hp, if_neg (by simp [hcdn])]
    exact v2LocalFetch_hit_netFetched net st req c hc
  · rw [v1_hit net st req c hm hp hc]

/-- **C3, witness**: concrete cache hit, non-CDN hostname. -/
theorem C3_witness :
    (fetchHandlerV3 netOkAll [("c", [(reqPlain.url, respOk)])]
      reqPlain).netFetched = [] ∧
    (fetchHandlerV2 netOkAll [("c", [(reqPlain.url, respOk)])]
      reqPlain).netFetched = [reqPlain.url] ∧
    (fetchHandlerV1 netOkAll [("c", [(reqPlain.url, respOk)])]
      reqPlain).netFetched = [reqPlain.url] := by
  have h := C3_hitNetwork_amended netOkAll [("c", [(reqPlain.url, respOk)])]
    reqPlain respOk rfl (by decide) (by decide) (by decide)
  exact ⟨h.1, h.2.2.1 (by decide), h.2.2.2⟩

/-! ### Claim C4 — activate evicts stale caches -/

/-- **C4, counterexample.**  The v2 activate handler keeps every cache whose
name starts with `ai-learning` or `stlite`, so the stale previous-version
cache `ai-learning-v1` — which is not one of the current version's caches
(`ai-learning-v2`, `stlite-cache-v1`) — survives activation undeleted. -/
theorem C4_counterexample :
    "ai-learning-v1" ≠ CACHE_NAME_V2 ∧ "ai-learning-v1" ≠ STLITE_CACHE ∧
    activateV2 [("ai-learning-v1", [(reqPlain.url, respOk)])] =
      [("ai-learning-v1", [(reqPlain.url, respOk)])] := by
  decide

/-- **C4 (amended).**  Each activate handler deletes exactly the caches
failing its keep predicate and leaves the kept caches with their entries
unchanged; the predicates are: name equal to `static-v1` or `dynamic-v1`
(v1), name starting with `ai-learning` or `stlite` (v2 — a prefix test
that also retains stale older-version caches such as `ai-learning-v1`),
and name equal to `ai-learning-v3` (v3). -/
theorem C4_activate_amended (st : CacheStorage) (n : String) (c : Cache) :
    ((n, c) ∈ activateV1 st ↔ (n, c) ∈ st ∧ keepV1 n = true) ∧
    ((n, c) ∈ activateV2 st ↔ (n, c) ∈ st ∧ keepV2 n = true) ∧
    ((n, c) ∈ activateV3 st ↔ (n, c) ∈ st ∧ keepV3 n = true) := by
  refine ⟨?_, ?_, ?_⟩ <;>
    simp [activateV1, activateV2, activateV3, List.mem_filter]

/-- **C4, witness**: a concrete storage where the stale `old-cache` is
deleted and the current v3 cache survives with its entry. -/
theorem C4_witness :
    (("old-cache", ([] : Cache)) ∈
        ([("old-cache", ([] : Cache)), (CACHE_NAME_V3, [("./", respOk)])] :
          CacheStorage) ∧ keepV3 "old-cache" = true ↔ False) ∧
    ((CACHE_NAME_V3, [("./", respOk)]) ∈
      activateV3 [("old-cache", ([] : Cache)),
        (CACHE_NAME_V3, [("./", respOk)])]) := by
  constructor
  · rw [iff_false]
    intro h
    have := (C4_activate_amended [("old-cache", ([] : Cache)),
      (CACHE_NAME_V3, [("./", respOk)])] "old-cache" ([] : Cache)).2.2.2 h
    revert this
    decide
  · exact (C4_activate_amended [("old-cache", ([] : Cache)),
      (CACHE_NAME_V3, [("./", respOk)])] CACHE_NAME_V3
        [("./", respOk)]).2.2.2 (by decide)

/-! ### Claim C9 — non-GET / non-http requests pass through -/

/-- A GET request whose URL scheme is neither `http:` nor `https:` but does
start with the four letters `http`: the skip guards (a prefix test) let it
through. -/
def reqOdd : Request := ⟨"GET", "httpx://weird/x", "httpx:", "weird", none⟩

/-- **C9, counterexample.**  The skip guard is a prefix test
(`url.protocol.startsWith('http')`), not an http(s) check: a GET request
with the non-http(s) scheme `httpx:` is *not* passed through — the v2
handler calls `respondWith` on it. -/
theorem C9_counterexample :
    reqOdd.protocol ≠ "http:" ∧ reqOdd.protocol ≠ "https:" ∧
    (fetchHandlerV2 netDown [] reqOdd).result ≠ .pass := by
  decide

/-- **C9 (amended).**  Every fetch event whose request method is not GET,
or whose URL protocol (v1, v2) or URL string (v3) does not start with
`http`, passes through untouched: the handler returns before calling
`respondWith`, leaves every cache unchanged, and issues no network
fetch. -/
theorem C9_passThrough_amended (net : Network) (st : CacheStorage)
    (req : Request)
    (h12 : req.method ≠ "GET" ∨ strStartsWith req.protocol "http" = false)
    (h3 : req.method ≠ "GET" ∨ strStartsWith req.url "http" = false) :
    fetchHandlerV1 net st req = ⟨.pass, st, []⟩ ∧
    fetchHandlerV2 net st req = ⟨.pass, st, []⟩ ∧
    fetchHandlerV3 net st req = ⟨.pass, st, []⟩ :=
  ⟨v1_pass net st req h12, v2_pass net st req h12, v3_pass net st req h3⟩

/-- **C9, witness**: a concrete POST request passes through all three
handlers with the caches untouched. -/
theorem C9_witness :
    fetchHandlerV1 netOkAll [("c", [(reqPost.url, respOk)])] reqPost =
      ⟨.pass, [("c", [(reqPost.url, respOk)])], []⟩ ∧
    fetchHandlerV2 netOkAll [("c", [(reqPost.url, respOk)])] reqPost =
      ⟨.pass, [("c", [(reqPost.url, respOk)])], []⟩ ∧
    fetchHandlerV3 netOkAll [("c", [(reqPost.url, respOk)])] reqPost =
      ⟨.pass, [("c", [(reqPost.url, respOk)])], []⟩ :=
  C9_passThrough_amended netOkAll [("c", [(reqPost.url, respOk)])] reqPost
    (Or.inl (by decide)) (Or.inl (by decide))

/-! ### Claim C5 — catch-and-fallback -/

/-- **C5, counterexample.**  The catch branch does not return the cached
offline fallback page on every failed fetch: for a cache miss with the
network down and an `accept` header without `text/html`, the v2 catch
returns no value at all — even though the fallback `/index.html` is
cached. -/
theorem C5_counterexample :
    cachesMatch [(CACHE_NAME_V2, [("/index.html", respOk)])] "/index.html"
      = some respOk ∧
    (fetchHandlerV2 netDown [(CACHE_NAME_V2, [("/index.html", respOk)])]
      reqJson).result = .respondNone := by
  decide

/-- Fixture: a storage caching all three fallback pages. -/
def stFallbacks : CacheStorage :=
  [(CACHE_NAME_V2, [("/index.html", respOk), ("/offline.html", respOk),
    ("./index.html", respOk)])]

/-- **C5 (amended).**  When the request is not in the cache and the network
fetch fails (non-CDN hostname), each handler's single catch decides the
outcome: v1 and v2 return the cached fallback page (`/offline.html` and
`/index.html` respectively) only when the `accept` header includes
`text/html`, and return no value for other `accept` values, while v3
returns the cached `./index.html` unconditionally. -/
theorem C5_catchFallback_amended (net : Network) (st : CacheStorage)
    (req : Request) (hm : req.method = "GET")
    (hp : strStartsWith req.protocol "http" = true)
    (hu : strStartsWith req.url "http" = true)
    (hc : cachesMatch st req.url = none) (hn : net req.url = none)
    (hcdn : isCdnHost req.hostname = false) :
    ((∃ a, req.accept = some a ∧ substrOf "text/html" a = true) →
      (∀ f, cachesMatch st "/index.html" = some f →
        (fetchHandlerV2 net st req).result = .respond f) ∧
      (∀ f, cachesMatch st "/offline.html" = some f →
        (fetchHandlerV1 net st req).result = .respond f)) ∧
    (∀ f, cachesMatch st "./index.html" = some f →
      (fetchHandlerV3 net st req).result = .respond f) ∧
    (∀ a, req.accept = some a → substrOf "text/html" a = false →
      (fetchHandlerV2 net st req).result = .respondNone ∧
      (fetchHandlerV1 net st req).result = .respondNone) := by
  have h2 : (fetchHandlerV2 net st req).result = v2Catch st req := by
    rw [v2_guard_eq net st req hm hp, if_neg (by simp [hcdn]),
      v2LocalFetch_miss_none net st req hc hn]
  have h1 : (fetchHandlerV1 net st req).result = v1Catch st req := by
    rw [v1_miss_none net st req hm hp hc hn]
  have h3 : (fetchHandlerV3 net st req).result = v3Catch st := by
    rw [v3_miss_none net st req hm hu hc hn]
  refine ⟨?_, ?_, ?_⟩
  · rintro ⟨a, ha, hhtml⟩
    constructor
    · intro f hf
      rw [h2, v2Catch_some st req a ha, if_pos hhtml, hf]
    · intro f hf
      rw [h1, v1Catch_some st req a ha, if_pos hhtml, hf]
  · intro f hf
    rw [h3]; unfold v3Catch; rw [hf]
  · intro a ha hhtml
    constructor
    · rw [h2, v2Catch_some st req a ha, if_neg (by simp [hhtml])]
    · rw [h1, v1Catch_some st req a ha, if_neg (by simp [hhtml])]

/-- **C5, witness**: a concrete html-accepting request, failed fetch, all
fallback pages cached. -/
theorem C5_witness :
    (fetchHandlerV2 netDown stFallbacks reqHtml).result = .respond respOk ∧
    (fetchHandlerV1 netDown stFallbacks reqHtml).result = .respond respOk ∧
    (fetchHandlerV3 netDown stFallbacks reqHtml).result = .respond respOk := by
  have h := C5_catchFallback_amended netDown stFallbacks reqHtml rfl
    (by decide) (by decide) (by decide) rfl (by decide)
  exact ⟨(h.1 ⟨_, rfl, by decide⟩).1 respOk (by decide),
    (h.1 ⟨_, rfl, by decide⟩).2 respOk (by decide),
    h.2.1 respOk (by decide)⟩

/-! ### Claim C10 — totality of the offline fallback -/

/-- **C10, counterexample.**  The offline-fallback branch is not total: with
an absent `accept` header the v1 catch dereferences `null` and the
`respondWith` promise rejects; with a non-html `accept` the v2 catch
resolves with no response. -/
theorem C10_counterexample :
    reqPlain.accept = none ∧
    (fetchHandlerV1 netDown [] reqPlain).result = .failure ∧
    (fetchHandlerV2 netDown [] reqJson).result = .respondNone := by
  decide

/-- **C10 (amended).**  When both the cache lookup and the network fetch
fail (non-CDN hostname): the v3 catch always yields a defined outcome
(never a rejection), the v2 catch never throws (optional chaining) but
yields no response whenever the `accept` header is absent or lacks
`text/html`, and the v1 catch throws — the promise rejects — on a request
with no `accept` header. -/
theorem C10_catchTotality_amended (net : Network) (st : CacheStorage)
    (req : Request) (hm : req.method = "GET")
    (hp : strStartsWith req.protocol "http" = true)
    (hu : strStartsWith req.url "http" = true)
    (hc : cachesMatch st req.url = none) (hn : net req.url = none)
    (hcdn : isCdnHost req.hostname = false) :
    (fetchHandlerV3 net st req).result ≠ .failure ∧
    (fetchHandlerV2 net st req).result ≠ .failure ∧
    ((∀ a, req.accept = some a → substrOf "text/html" a = false) →
      (fetchHandlerV2 net st req).result = .respondNone) ∧
    (req.accept = none → (fetchHandlerV1 net st req).result = .failure) := by
  have h2 : (fetchHandlerV2 net st req).result = v2Catch st req := by
    rw [v2_guard_eq net st req hm hp, if_neg (by simp [hcdn]),
      v2LocalFetch_miss_none net st req hc hn]
  have h1 : (fetchHandlerV1 net st req).result = v1Catch st req := by
    rw [v1_miss_none net st req hm hp hc hn]
  have h3 : (fetchHandlerV3 net st req).result = v3Catch st := by
    rw [v3_miss_none net st req hm hu hc hn]
  refine ⟨?_, ?_, ?_, ?_⟩
  · rw [h3]; unfold v3Catch
    cases hcm : cachesMatch st "./index.html" <;> simp
  · rw [h2]
    rcases ha : req.accept with _ | a
    · rw [v2Catch_none st req ha]; simp
    · rw [v2Catch_some st req a ha]
      by_cases hhtml : substrOf "text/html" a
      · rw [if_pos hhtml]
        cases hcm : cachesMatch st "/index.html" <;> simp
      · rw [if_neg hhtml]; simp
  · intro hna
    rw [h2]
    rcases ha : req.accept with _ | a
    · exact v2Catch_none st req ha
    · rw [v2Catch_some st req a ha, if_neg (by simp [hna a ha])]
  · intro ha
    rw [h1, v1Catch_none st req ha]

/-- **C10, witness**: the concrete json-accepting request with the network
down — v3 and v2 resolve, v2 with no response. -/
theorem C10_witness :
    (fetchHandlerV3 netDown [] reqJson).result ≠ .failure ∧
    (fetchHandlerV2 netDown [] reqJson).result = .respondNone := by
  have h := C10_catchTotality_amended netDown [] reqJson rfl (by decide)
    (by decide) rfl rfl (by decide)
  refine ⟨h.1, h.2.2.1 ?_⟩
  intro a ha
  rw [← Option.some.inj ha]
  decide

/-! ### Claim C6 — install populates the caches -/

/-- **C6.**  When an install handler completes successfully, every URL of
its asset lists has an entry in the corresponding named cache: v2 stores
`STATIC_ASSETS` in `ai-learning-v2` and `STLITE_RESOURCES` in
`stlite-cache-v1`; v3 stores its assets in `ai-learning-v3`; v1 stores its
assets in `static-v1`. -/
theorem C6_installPopulates (net : Network) (st : CacheStorage) :
    (∀ st2, installV2 net st = some st2 →
      (∀ u ∈ STATIC_ASSETS_V2, (storageLookup st2 CACHE_NAME_V2 u).isSome) ∧
      (∀ u ∈ STLITE_RESOURCES, (storageLookup st2 STLITE_CACHE u).isSome)) ∧
    (∀ st3, installV3 net st = some st3 →
      ∀ u ∈ STATIC_ASSETS_V3, (storageLookup st3 CACHE_NAME_V3 u).isSome) ∧
    (∀ st1, installV1 net st = some st1 →
      ∀ u ∈ STATIC_ASSETS_V1, (storageLookup st1 STATIC_CACHE u).isSome) := by
  refine ⟨?_, ?_, ?_⟩
  · intro st2 h
    unfold installV2 at h
    split at h
    · next es1 es2 h1 h2 =>
        cases Option.some.inj h
        constructor
        · intro u hu
          refine storageLookup_putAll_isSome es2 _ STLITE_CACHE CACHE_NAME_V2 u ?_
          refine storageLookup_putAll_mem es1 st CACHE_NAME_V2 u ?_
          rw [addAll_keys net STATIC_ASSETS_V2 es1 h1]
          exact hu
        · intro u hu
          refine storageLookup_putAll_mem es2 _ STLITE_CACHE u ?_
          rw [addAll_keys net STLITE_RESOURCES es2 h2]
          exact hu
    · exact absurd h (by simp)
  · intro st3 h
    unfold installV3 at h
    rw [Option.map_eq_some'] at h
    obtain ⟨es, he, rfl⟩ := h
    intro u hu
    refine storageLookup_putAll_mem es st CACHE_NAME_V3 u ?_
    rw [addAll_keys net STATIC_ASSETS_V3 es he]
    exact hu
  · intro st1 h
    unfold installV1 at h
    rw [Option.map_eq_some'] at h
    obtain ⟨es, he, rfl⟩ := h
    intro u hu
    refine storageLookup_putAll_mem es st STATIC_CACHE u ?_
    rw [addAll_keys net STATIC_ASSETS_V1 es he]
    exact hu

/-- **C6, witness**: a concrete successful v3 install over an all-`ok`
network leaves `./index.html` stored in `ai-learning-v3`. -/
theorem C6_witness :
    (storageLookup [(CACHE_NAME_V3, [("./", respOk), ("./index.html", respOk),
      ("./manifest.json", respOk)])] CACHE_NAME_V3 "./index.html").isSome :=
  (C6_installPopulates netOkAll []).2.1
    [(CACHE_NAME_V3, [("./", respOk), ("./index.html", respOk),
      ("./manifest.json", respOk)])] (by decide) "./index.html" (by decide)

/-! ### Claim C7 — atomicity of the background-sync stub -/

/-- **C7.**  The v1 background-sync stub on a `sync-progress` event: with a
non-empty queue and both the read and the POST succeeding, the queue is
cleared (after one network request); a failing read leaves the queue
unchanged with no request; a failing POST leaves the queue unchanged; an
empty queue causes no network request; and any other tag does nothing. -/
theorem C7_syncAtomic (readOk postOk : Bool) (q : List String)
    (tag : String) :
    (q ≠ [] → readOk = true → postOk = true →
      syncHandler "sync-progress" readOk q postOk = ([], true)) ∧
    (readOk = false → syncHandler "sync-progress" readOk q postOk
      = (q, false)) ∧
    (q ≠ [] → readOk = true → postOk = false →
      syncHandler "sync-progress" readOk q postOk = (q, true)) ∧
    (syncHandler "sync-progress" readOk [] postOk = ([], false)) ∧
    (tag ≠ "sync-progress" →
      syncHandler tag readOk q postOk = (q, false)) := by
  refine ⟨?_, ?_, ?_, ?_, ?_⟩
  · intro hq hr hp
    simp [syncHandler, syncProgress, hq, hr, hp]
  · intro hr
    simp [syncHandler, syncProgress, hr]
  · intro hq hr hp
    simp [syncHandler, syncProgress, hq, hr, hp]
  · cases readOk <;> simp [syncHandler, syncProgress]
  · intro ht
    simp [syncHandler, ht]

/-- **C7, witness**: concrete one-element queue, read and POST succeed:
cleared after one request. -/
theorem C7_witness :
    syncHandler "sync-progress" true ["progress-item"] true = ([], true) :=
  (C7_syncAtomic true true ["progress-item"] "other").1 (by decide) rfl rfl

/-! ### Claim C8 — only ok responses enter a cache via the fetch path -/

/-- **C8.**  Every `cache.put` on the fetch path (all three handlers,
background revalidations included) is `ok`-guarded: after any sequence of
fetch-handler runs over any of the three variants, every entry of the
resulting cache storage either was already present initially or is an `ok`
response. -/
theorem C8_okEntriesInvariant (net : Network) (st : CacheStorage)
    (evs : List (Variant × Request)) (n k : String) (r : Response)
    (h : storageLookup (runFetches net st evs) n k = some r) :
    storageLookup st n k = some r ∨ r.ok = true :=
  runFetches_growth net evs st n k r h

/-- **C8, witness**: running the v3 handler on a miss over an `ok` network
stores an entry, and the invariant applied to it yields that it is `ok`. -/
theorem C8_witness :
    storageLookup ([] : CacheStorage) CACHE_NAME_V3 reqPlain.url
      = some respOk ∨ respOk.ok = true :=
  C8_okEntriesInvariant netOkAll [] [(Variant.v3, reqPlain)] CACHE_NAME_V3
    reqPlain.url respOk (by decide)

end SW
